import Mathlib

/-
  Shallow embedding of the jsteenb2/search query abstraction layer:
  the query model (query.go), the bleve query compiler (pkg/engine/bleve/query.go),
  the engine/index facade and result normalizer (pkg/engine/bleve/index.go).

  Modelling conventions:
  * Go float64 values are only copied around by this layer, never computed with,
    so they are modelled as rationals (Rat).
  * Go nilable pointers become Option.
  * A Go panic (explicit panic or a runtime index-out-of-range) aborts the
    process; it is modelled by the GoResult.panicked constructor, distinct from
    ordinary returned error values.
  * time.Time / time.Duration values are opaque to this layer and modelled as Int.
  * map[string]interface{} field payloads are opaque to the normalizer (copied
    verbatim); they are modelled as association lists of strings.
-/

/-- Outcome of running a piece of Go code that may panic: either a value or a
process abort carrying the panic message. -/
inductive GoResult (α : Type) where
  | ok (val : α)
  | panicked (msg : String)
deriving DecidableEq

/-- Go: `type Boost float64` (query.go). -/
abbrev Boost := Rat

/-- Go: `type QueryOperator int` (query.go). -/
abbrev QueryOperator := Int

/-- Go: `type QueryType int` (query.go). -/
abbrev QueryType := Int

def QueryTypeUnknown : QueryType := 0
def QueryTypeBoolean : QueryType := 1
def QueryTypeBoolField : QueryType := 2
def QueryTypeDateRange : QueryType := 3
def QueryTypeIDs : QueryType := 4
def QueryTypeMatch : QueryType := 5
def QueryTypeMatchAll : QueryType := 6
def QueryTypeMatchNone : QueryType := 7
def QueryTypeMatchPhrase : QueryType := 8
def QueryTypeMultiPhrase : QueryType := 9
def QueryTypeNumericRange : QueryType := 10
def QueryTypePrefix : QueryType := 11
def QueryTypeString : QueryType := 12
def QueryTypeTerm : QueryType := 13
def QueryTypeTermRange : QueryType := 14
def QueryTypeWildcard : QueryType := 15

/-- Go: `var queryTypes = [...]string{...}` (query.go), the name table indexed
by QueryType. -/
def queryTypes : List String :=
  ["unknown", "boolean", "bool field", "date range", "ids", "match",
   "match all", "match none", "match phrase", "multi phrase", "numeric range",
   "prefix", "string", "term", "term range", "wildcard"]

/-- Go: `func (q QueryType) String() string` (query.go).
`if int(q) >= len(queryTypes) { return "unknown query type" }` and otherwise
`return queryTypes[q] + " query type"`; a Go slice indexing with a negative
index is a runtime panic, which the first guard does not exclude. -/
def qtString (q : QueryType) : GoResult String :=
  if (queryTypes.length : Int) ≤ q then .ok "unknown query type"
  else if q < 0 then .panicked "runtime error: index out of range"
  else .ok (queryTypes.getD q.toNat "" ++ " query type")

/-- Document must satisfy AT LEAST ONE of the term searches (query.go). -/
def MatchQueryOperatorOr : QueryOperator := 0
/-- Document must satisfy ALL of the term searches (query.go). -/
def MatchQueryOperatorAnd : QueryOperator := 1

/-- Go: `type Bound interface{}` (query.go): an opaque range bound that is one
of nil, a string, a float64, or a time.Time. -/
inductive Bound where
  | null
  | str (s : String)
  | num (x : Rat)
  | date (t : Int)
deriving DecidableEq

/-- Go: `func BoundString(b Bound) string` — type assertion with the failure
flag discarded, so a non-string bound yields the zero value "". -/
def BoundString : Bound → String
  | .str s => s
  | _ => ""

/-- Go: `func BoundFloat64(b Bound) float64`. -/
def BoundFloat64 : Bound → Rat
  | .num x => x
  | _ => 0

/-- Go: `func BoundDate(b Bound) time.Time`; the zero time is modelled as 0. -/
def BoundDate : Bound → Int
  | .date t => t
  | _ => 0

/-- Go: `type QueryBoolField struct` (query.go). -/
structure QueryBoolField where
  bool : Bool
  boostVal : Option Boost
  fieldVal : String
deriving DecidableEq

/-- Go: `type QueryIDs struct` (query.go). -/
structure QueryIDs where
  ids : List String
  boostVal : Option Boost
deriving DecidableEq

/-- Go: `type QueryMatch struct` (query.go). `Prefix` is rendered as
`prefixLen`. -/
structure QueryMatch where
  matchVal : String
  analyzer : String
  boostVal : Option Boost
  fieldVal : String
  prefixLen : Int
  fuzziness : Int
  operator : QueryOperator
deriving DecidableEq

/-- Go: `type QueryMatchAll struct { BoostVal *Boost }` (query.go). -/
structure QueryMatchAll where
  boostVal : Option Boost
deriving DecidableEq

/-- Go: `type QueryMatchNone struct { BoostVal *Boost }` (query.go). -/
structure QueryMatchNone where
  boostVal : Option Boost
deriving DecidableEq

/-- Go: `type QueryMatchPhrase struct` (query.go). -/
structure QueryMatchPhrase where
  matchPhrase : String
  fieldVal : String
  analyzer : String
  boostVal : Option Boost
deriving DecidableEq

/-- Go: `type QueryTerm struct` (query.go). -/
structure QueryTerm where
  term : String
  fieldVal : String
  boostVal : Option Boost
deriving DecidableEq

/-- The Go `Query` interface: anything with a `QueryPlan()` method.  The
variants with QueryPlan methods in query.go are embedded one constructor each;
`QueryBoolean`'s fields are inlined since it nests further Query values.  The
`raw` constructor stands for an arbitrary third-party implementation of the
interface returning an arbitrary QueryPlan (the interface is open in Go), with
the plan's fields inlined. -/
inductive Query where
  | boolField (q : QueryBoolField)
  | boolean (should must mustNot : List Query) (boostVal : Option Boost)
  | ids (q : QueryIDs)
  | matchQ (q : QueryMatch)
  | matchAll (q : QueryMatchAll)
  | matchNone (q : QueryMatchNone)
  | matchPhrase (q : QueryMatchPhrase)
  | term (q : QueryTerm)
  | raw (type : QueryType) (should must mustNot : List Query) (analyzer : String)
      (boostVal : Option Boost) (fieldVal : String) (bool : Bool)
      (matchesVal : List String) (fuzziness : Int) (operator : QueryOperator)
      (prefixLen : Int) (terms : List (List String)) (minB maxB : Bound)
      (inclusiveMin inclusiveMax : Bool)

/-- Go: `type QueryPlan struct` (query.go). `Prefix` is `prefixLen`, `Min`/`Max`
are `minB`/`maxB`. -/
structure QueryPlan where
  type : QueryType
  should : List Query
  must : List Query
  mustNot : List Query
  analyzer : String
  boostVal : Option Boost
  fieldVal : String
  bool : Bool
  matchesVal : List String
  fuzziness : Int
  operator : QueryOperator
  prefixLen : Int
  terms : List (List String)
  minB : Bound
  maxB : Bound
  inclusiveMin : Bool
  inclusiveMax : Bool

/-- The zero value of the Go QueryPlan struct: fields a composite literal does
not mention. -/
def zeroPlan : QueryPlan :=
  { type := 0, should := [], must := [], mustNot := [], analyzer := "",
    boostVal := none, fieldVal := "", bool := false, matchesVal := [],
    fuzziness := 0, operator := 0, prefixLen := 0, terms := [],
    minB := .null, maxB := .null, inclusiveMin := false, inclusiveMax := false }

/-- The Go `QueryPlan()` methods of every variant (query.go), in state-passing
form: the returned pair is (the plan the method returns, the receiver after the
method body ran).  None of the method bodies assigns to a receiver field — each
is a single return of a composite literal — so the second component is the
receiver unchanged, statement for statement.
Note: `QueryMatchAll.QueryPlan` and `QueryMatchNone.QueryPlan` return
`QueryPlan{Type: ...}` only, so the receiver's BoostVal is NOT copied into the
plan (query.go lines 300-304 and 320-324). -/
def queryPlanSt : Query → QueryPlan × Query
  | .boolField q =>
      ({ zeroPlan with
          type := QueryTypeBoolField, bool := q.bool,
          boostVal := q.boostVal, fieldVal := q.fieldVal },
       .boolField q)
  | .boolean should must mustNot boostVal =>
      ({ zeroPlan with
          type := QueryTypeBoolean, should := should, must := must,
          mustNot := mustNot, boostVal := boostVal },
       .boolean should must mustNot boostVal)
  | .ids q =>
      ({ zeroPlan with
          type := QueryTypeIDs, matchesVal := q.ids,
          boostVal := q.boostVal },
       .ids q)
  | .matchQ q =>
      ({ zeroPlan with
          type := QueryTypeMatch, matchesVal := [q.matchVal],
          analyzer := q.analyzer, boostVal := q.boostVal, fieldVal := q.fieldVal,
          prefixLen := q.prefixLen, fuzziness := q.fuzziness,
          operator := q.operator },
       .matchQ q)
  | .matchAll q =>
      ({ zeroPlan with type := QueryTypeMatchAll }, .matchAll q)
  | .matchNone q =>
      ({ zeroPlan with type := QueryTypeMatchNone }, .matchNone q)
  | .matchPhrase q =>
      ({ zeroPlan with
          type := QueryTypeMatchPhrase, matchesVal := [q.matchPhrase],
          analyzer := q.analyzer, boostVal := q.boostVal,
          fieldVal := q.fieldVal },
       .matchPhrase q)
  | .term q =>
      ({ zeroPlan with
          type := QueryTypeTerm, matchesVal := [q.term],
          boostVal := q.boostVal, fieldVal := q.fieldVal },
       .term q)
  | .raw type should must mustNot analyzer boostVal fieldVal bool matchesVal
        fuzziness operator prefixLen terms minB maxB inclusiveMin inclusiveMax =>
      ({ type := type, should := should, must := must, mustNot := mustNot,
         analyzer := analyzer, boostVal := boostVal, fieldVal := fieldVal,
         bool := bool, matchesVal := matchesVal, fuzziness := fuzziness,
         operator := operator, prefixLen := prefixLen, terms := terms,
         minB := minB, maxB := maxB, inclusiveMin := inclusiveMin,
         inclusiveMax := inclusiveMax },
       .raw type should must mustNot analyzer boostVal fieldVal bool matchesVal
         fuzziness operator prefixLen terms minB maxB inclusiveMin inclusiveMax)

/-- `q.QueryPlan()`, value only. -/
def queryPlan (q : Query) : QueryPlan := (queryPlanSt q).1

/-- Go: `func NewQueryMatch(match string) *QueryMatch` — only the Match field
is set; the rest are Go zero values. -/
def newQueryMatch (m : String) : QueryMatch :=
  { matchVal := m, analyzer := "", boostVal := none, fieldVal := "",
    prefixLen := 0, fuzziness := 0, operator := 0 }

/-- Go: `func NewQueryMatchAll() *QueryMatchAll`. -/
def newQueryMatchAll : QueryMatchAll := { boostVal := none }

/-- Go: `func NewQueryMatchNone() *QueryMatchNone`. -/
def newQueryMatchNone : QueryMatchNone := { boostVal := none }

/-- Go: `func NewQueryTerm(term string) *QueryTerm`. -/
def newQueryTerm (t : String) : QueryTerm :=
  { term := t, fieldVal := "", boostVal := none }

/-- Go: `func NewQueryMatchPhrase(phrase string) *QueryMatchPhrase`. -/
def newQueryMatchPhrase (p : String) : QueryMatchPhrase :=
  { matchPhrase := p, fieldVal := "", analyzer := "", boostVal := none }

/-- Go: `func (q *QueryMatchAll) SetBoost(b float64) *QueryMatchAll`. -/
def QueryMatchAll.setBoost (q : QueryMatchAll) (b : Rat) : QueryMatchAll :=
  { q with boostVal := some b }

/-- Go: `func (q *QueryMatchNone) SetBoost(b float64) *QueryMatchNone`. -/
def QueryMatchNone.setBoost (q : QueryMatchNone) (b : Rat) : QueryMatchNone :=
  { q with boostVal := some b }

/-
  Native (bleve) query model.  The bleve query objects set by the compiler are
  modelled structurally; setter-style fields that the compiler sets only
  conditionally are Option-valued, with `none` standing for "the engine default,
  setter never invoked" (for BoostVal this is literally bleve's nilable *Boost;
  for Field/Analyzer the bleve default is the empty string, for Prefix and
  Fuzziness it is 0 — the Option records whether the compiler wrote a value,
  which is the observable the boost/fuzziness/prefix policies are about).
-/

/-- bleve query.BoolFieldQuery as configured by the compiler. -/
structure BoolFieldQueryN where
  bool : Bool
  fieldVal : Option String
  boostVal : Option Boost
deriving DecidableEq

/-- bleve query.DateRangeQuery as configured by the compiler; `stop` is the Go
`End` field. -/
structure DateRangeQueryN where
  start : Int
  stop : Int
  inclusiveStart : Bool
  inclusiveEnd : Bool
  fieldVal : Option String
  boostVal : Option Boost
deriving DecidableEq

/-- bleve query.DocIDQuery as configured by the compiler. -/
structure DocIDQueryN where
  ids : List String
  boostVal : Option Boost
deriving DecidableEq

/-- bleve query.MatchQuery as configured by the compiler. -/
structure MatchQueryN where
  matchVal : String
  operator : QueryOperator
  fieldVal : Option String
  analyzer : Option String
  boostVal : Option Boost
  prefixLen : Option Int
  fuzziness : Option Int
deriving DecidableEq

/-- bleve query.MatchPhraseQuery as configured by the compiler. -/
structure MatchPhraseQueryN where
  matchPhrase : String
  fieldVal : Option String
  analyzer : Option String
  boostVal : Option Boost
deriving DecidableEq

/-- bleve query.TermQuery as configured by the compiler (constructed as a
struct literal, so FieldVal is written unconditionally). -/
structure TermQueryN where
  term : String
  fieldVal : String
  boostVal : Option Boost
deriving DecidableEq

/-- A compiled bleve query.Query value. -/
inductive NativeQuery where
  | boolField (q : BoolFieldQueryN)
  | boolean (must should mustNot : List NativeQuery) (boostVal : Option Boost)
  | dateRange (q : DateRangeQueryN)
  | docID (q : DocIDQueryN)
  | matchQ (q : MatchQueryN)
  | matchAll (boostVal : Option Boost)
  | matchNone (boostVal : Option Boost)
  | matchPhrase (q : MatchPhraseQueryN)
  | term (q : TermQueryN)

/-- Go pattern `if qp.BoostVal != nil { q.SetBoost(float64(*qp.BoostVal)) }`:
the new boost field of the native query given the plan's boost and the field's
current value. -/
def setBoostIfPresent (bv cur : Option Boost) : Option Boost :=
  match bv with
  | some b => some b
  | none => cur

/-- Go pattern `if qp.FieldVal != "" { q.SetField(qp.FieldVal) }` (and the
analogous analyzer assignment): the new value of a string-configured native
field. -/
def setStringIfNonEmpty (v : String) (cur : Option String) : Option String :=
  if v = "" then cur else some v

/-- Go: `func newBoolFieldQuery(qp search.QueryPlan) *query.BoolFieldQuery`
(pkg/engine/bleve/query.go). -/
def newBoolFieldQuery (qp : QueryPlan) : BoolFieldQueryN :=
  let q : BoolFieldQueryN := { bool := qp.bool, fieldVal := none, boostVal := none }
  let q := { q with fieldVal := setStringIfNonEmpty qp.fieldVal q.fieldVal }
  { q with boostVal := setBoostIfPresent qp.boostVal q.boostVal }

/-- Go: `func newDataRangeQuery(qp search.QueryPlan) *query.DateRangeQuery`
(pkg/engine/bleve/query.go); the inclusivity pointers are overwritten
unconditionally with the plan's flags. -/
def newDataRangeQuery (qp : QueryPlan) : DateRangeQueryN :=
  let q : DateRangeQueryN :=
    { start := BoundDate qp.minB, stop := BoundDate qp.maxB,
      inclusiveStart := qp.inclusiveMin, inclusiveEnd := qp.inclusiveMax,
      fieldVal := none, boostVal := none }
  let q := { q with fieldVal := setStringIfNonEmpty qp.fieldVal q.fieldVal }
  { q with boostVal := setBoostIfPresent qp.boostVal q.boostVal }

/-- Go: `func newMatchQuery(qp search.QueryPlan) *query.MatchQuery`
(pkg/engine/bleve/query.go).  `bleve.NewMatchQuery(qp.Matches[0])` panics with
an index-out-of-range runtime error when Matches is empty. -/
def newMatchQuery (qp : QueryPlan) : GoResult MatchQueryN :=
  match qp.matchesVal with
  | [] => .panicked "runtime error: index out of range"
  | m0 :: _ =>
    let q : MatchQueryN :=
      { matchVal := m0, operator := 0, fieldVal := none, analyzer := none,
        boostVal := none, prefixLen := none, fuzziness := none }
    let q := { q with operator := qp.operator }
    let q := { q with fieldVal := setStringIfNonEmpty qp.fieldVal q.fieldVal }
    let q := { q with analyzer := setStringIfNonEmpty qp.analyzer q.analyzer }
    let q := { q with boostVal := setBoostIfPresent qp.boostVal q.boostVal }
    let q := if qp.prefixLen > 0 then { q with prefixLen := some qp.prefixLen } else q
    let q := if qp.fuzziness > 0 then { q with fuzziness := some qp.fuzziness } else q
    .ok q

/-- Go: `func newMatchPhraseQuery(qp search.QueryPlan) *query.MatchPhraseQuery`
(pkg/engine/bleve/query.go). -/
def newMatchPhraseQuery (qp : QueryPlan) : GoResult MatchPhraseQueryN :=
  match qp.matchesVal with
  | [] => .panicked "runtime error: index out of range"
  | m0 :: _ =>
    let q : MatchPhraseQueryN :=
      { matchPhrase := m0, fieldVal := none, analyzer := none, boostVal := none }
    let q := { q with fieldVal := setStringIfNonEmpty qp.fieldVal q.fieldVal }
    let q := { q with analyzer := setStringIfNonEmpty qp.analyzer q.analyzer }
    let q := { q with boostVal := setBoostIfPresent qp.boostVal q.boostVal }
    .ok q

/-- Go: `func newTermQuery(qp search.QueryPlan) *query.TermQuery`
(pkg/engine/bleve/query.go). -/
def newTermQuery (qp : QueryPlan) : GoResult TermQueryN :=
  match qp.matchesVal with
  | [] => .panicked "runtime error: index out of range"
  | t0 :: _ =>
    let q : TermQueryN := { term := t0, fieldVal := qp.fieldVal, boostVal := none }
    .ok { q with boostVal := setBoostIfPresent qp.boostVal q.boostVal }

/-- Go: the `default:` arm of convertQuery's switch:
`panic("unexpected query type: " + qp.Type.String())`; a panic inside the
String call (negative type) also aborts. -/
def unexpectedQueryType (t : QueryType) : GoResult NativeQuery :=
  match qtString t with
  | .ok s => .panicked ("unexpected query type: " ++ s)
  | .panicked m => .panicked m

/-- sizeOf of a list is positive (helper for the compiler's termination). -/
theorem list_sizeOf_pos {α : Type} [SizeOf α] (l : List α) : 0 < sizeOf l := by
  cases l <;> simp_arith

mutual
/-- Go: `func convertQuery(q search.Query) query.Query`
(pkg/engine/bleve/query.go).  The Go function computes `qp := q.QueryPlan()`
and switches on `qp.Type`; for each builder variant the plan's Type is fixed by
its QueryPlan method, so the corresponding switch arm is taken directly.  The
Boolean arm (`newBoolQuery`) recurses into the plan's clause lists, which the
builder's QueryPlan method copies verbatim from the receiver. -/
def convertQuery (q : Query) : GoResult NativeQuery :=
  match q with
  | .boolField qb => .ok (.boolField (newBoolFieldQuery (queryPlan (.boolField qb))))
  | .boolean should must mustNot boostVal =>
      newBoolQuery should must mustNot boostVal
  | .ids qi =>
      -- case QueryTypeIDs: q := query.NewDocIDQuery(qp.Matches); boost if set
      let qp := queryPlan (.ids qi)
      .ok (.docID { ids := qp.matchesVal,
                    boostVal := setBoostIfPresent qp.boostVal none })
  | .matchQ qm =>
      match newMatchQuery (queryPlan (.matchQ qm)) with
      | .ok nq => .ok (.matchQ nq)
      | .panicked m => .panicked m
  | .matchAll qa =>
      -- case QueryTypeMatchAll: q := query.NewMatchAllQuery(); boost if set
      let qp := queryPlan (.matchAll qa)
      .ok (.matchAll (setBoostIfPresent qp.boostVal none))
  | .matchNone qn =>
      let qp := queryPlan (.matchNone qn)
      .ok (.matchNone (setBoostIfPresent qp.boostVal none))
  | .matchPhrase qmp =>
      match newMatchPhraseQuery (queryPlan (.matchPhrase qmp)) with
      | .ok nq => .ok (.matchPhrase nq)
      | .panicked m => .panicked m
  | .term qt =>
      match newTermQuery (queryPlan (.term qt)) with
      | .ok nq => .ok (.term nq)
      | .panicked m => .panicked m
  | .raw type should must mustNot analyzer boostVal fieldVal bool matchesVal
        fuzziness operator prefixLen terms minB maxB inclusiveMin inclusiveMax =>
      -- an arbitrary Query implementation: the full switch on qp.Type
      let qp := queryPlan (.raw type should must mustNot analyzer boostVal
        fieldVal bool matchesVal fuzziness operator prefixLen terms minB maxB
        inclusiveMin inclusiveMax)
      if qp.type = QueryTypeBoolField then .ok (.boolField (newBoolFieldQuery qp))
      else if qp.type = QueryTypeBoolean then
        newBoolQuery should must mustNot boostVal
      else if qp.type = QueryTypeDateRange then .ok (.dateRange (newDataRangeQuery qp))
      else if qp.type = QueryTypeIDs then
        .ok (.docID { ids := qp.matchesVal,
                      boostVal := setBoostIfPresent qp.boostVal none })
      else if qp.type = QueryTypeMatch then
        match newMatchQuery qp with
        | .ok nq => .ok (.matchQ nq)
        | .panicked m => .panicked m
      else if qp.type = QueryTypeMatchAll then
        .ok (.matchAll (setBoostIfPresent qp.boostVal none))
      else if qp.type = QueryTypeMatchNone then
        .ok (.matchNone (setBoostIfPresent qp.boostVal none))
      else if qp.type = QueryTypeMatchPhrase then
        match newMatchPhraseQuery qp with
        | .ok nq => .ok (.matchPhrase nq)
        | .panicked m => .panicked m
      else if qp.type = QueryTypeTerm then
        match newTermQuery qp with
        | .ok nq => .ok (.term nq)
        | .panicked m => .panicked m
      else unexpectedQueryType qp.type
termination_by sizeOf q
decreasing_by
  all_goals simp_wf
  all_goals omega

/-- Go: `func newBoolQuery(qp search.QueryPlan) *query.BooleanQuery`
(pkg/engine/bleve/query.go): `bleve.NewBooleanQuery()` (no boost), boost if the
plan has one, then AddMust/AddShould/AddMustNot with each clause converted
recursively, in that order; a panic in any conversion aborts the whole call. -/
def newBoolQuery (should must mustNot : List Query) (boostVal : Option Boost) :
    GoResult NativeQuery :=
  match convertQueryList must with
  | .panicked m => .panicked m
  | .ok musts =>
    match convertQueryList should with
    | .panicked m => .panicked m
    | .ok shoulds =>
      match convertQueryList mustNot with
      | .panicked m => .panicked m
      | .ok mustNots =>
        .ok (.boolean musts shoulds mustNots (setBoostIfPresent boostVal none))
termination_by sizeOf should + sizeOf must + sizeOf mustNot
decreasing_by
  all_goals simp_wf
  all_goals
    (have h1 := list_sizeOf_pos should
     have h2 := list_sizeOf_pos must
     have h3 := list_sizeOf_pos mustNot
     omega)

/-- One clause list of newBoolQuery's AddMust/AddShould/AddMustNot loops:
convert each clause in order, aborting on the first panic. -/
def convertQueryList : List Query → GoResult (List NativeQuery)
  | [] => .ok []
  | q :: rest =>
    match convertQuery q with
    | .panicked m => .panicked m
    | .ok nq =>
      match convertQueryList rest with
      | .panicked m => .panicked m
      | .ok ns => .ok (nq :: ns)
termination_by l => sizeOf l
decreasing_by
  all_goals simp_wf
  all_goals omega
end

/-
  Result normalizer (pkg/engine/bleve/index.go) and the canonical result shape
  (search package).  Children of an explanation are []*Explanation in Go, so a
  child pointer may itself be nil: children are lists of Options.
-/

/-- bleve's ogsearch.Explanation: Value, Message, Children []*Explanation. -/
inductive NativeExplanation where
  | mk (value : Rat) (message : String) (children : List (Option NativeExplanation))

def NativeExplanation.value : NativeExplanation → Rat
  | .mk v _ _ => v

def NativeExplanation.message : NativeExplanation → String
  | .mk _ m _ => m

def NativeExplanation.children :
    NativeExplanation → List (Option NativeExplanation)
  | .mk _ _ cs => cs

/-- Go: `type Explanation struct` (search package, part_001). -/
inductive Explanation where
  | mk (value : Rat) (message : String) (children : List (Option Explanation))

def Explanation.value : Explanation → Rat
  | .mk v _ _ => v

def Explanation.message : Explanation → String
  | .mk _ m _ => m

def Explanation.children : Explanation → List (Option Explanation)
  | .mk _ _ cs => cs

mutual
/-- The non-nil arm of Go's `convertExplanation` (pkg/engine/bleve/index.go):
build `newEx` with Value and Message, return it as-is when the source has no
children, and otherwise assign
`newEx.Children = make([]*search.Explanation, len(newEx.Children))` — the
length is taken from the NEW node, whose Children field is still nil, so the
make yields an EMPTY slice — followed by appending `convertExplanation(chExpl)`
for each source child in order. -/
def convertExplanationRec : NativeExplanation → Explanation
  | .mk v msg cs =>
    let newEx : Explanation := .mk v msg []
    if cs.length = 0 then newEx
    else .mk v msg
      (List.replicate newEx.children.length none ++ convertExplanationList cs)

/-- The `for _, chExpl := range ex.Children { append(convertExplanation(chExpl)) }`
loop: each (possibly nil) child pointer is converted in order. -/
def convertExplanationList :
    List (Option NativeExplanation) → List (Option Explanation)
  | [] => []
  | none :: rest => none :: convertExplanationList rest
  | some c :: rest => some (convertExplanationRec c) :: convertExplanationList rest
end

/-- Go: `func convertExplanation(ex *ogsearch.Explanation) *search.Explanation`
(pkg/engine/bleve/index.go): nil in, nil out; otherwise the recursive build. -/
def convertExplanation : Option NativeExplanation → Option Explanation
  | none => none
  | some ex => some (convertExplanationRec ex)

mutual
/-- Modelled from the spec: "a straightforward recursive structural copy
preserving full depth" — Value and Message preserved at every node, children
converted in order at every depth.  Used as the reference the code's
convertExplanation is compared against. -/
def explCopySpec : NativeExplanation → Explanation
  | .mk v msg cs => .mk v msg (explCopySpecList cs)

/-- The per-child action of the reference structural copy: nil children stay
nil, others are copied recursively. -/
def explCopySpecList :
    List (Option NativeExplanation) → List (Option Explanation)
  | [] => []
  | none :: rest => none :: explCopySpecList rest
  | some c :: rest => some (explCopySpec c) :: explCopySpecList rest
end

/-- Go: `type Status struct` (search package, part_001). -/
structure Status where
  total : Int
  failed : Int
  successful : Int
deriving DecidableEq

/-- Go: `type Hit struct` (search package, part_001). -/
structure Hit where
  index : String
  id : String
  score : Rat
  sort : List String
  explanation : Option Explanation
  fields : List (String × String)

/-- Go: `type Result struct` (search package, part_001). -/
structure Result where
  status : Option Status
  hits : List Hit
  total : Nat
  maxScore : Rat
  took : Int

/-- A hit of the bleve-native search response: index name, document id, score,
sort keys, optional explanation tree, and the requested field values. -/
structure NativeHit where
  index : String
  id : String
  score : Rat
  sort : List String
  expl : Option NativeExplanation
  fields : List (String × String)

/-- The bleve-native search response: per-shard status, ordered hits, total hit
count, max score and elapsed engine time. -/
structure NativeSearchResult where
  status : Option Status
  hits : List NativeHit
  total : Nat
  maxScore : Rat
  took : Int

/-- Go: `func convertSearchResult(r *bleve.SearchResult) *search.Result`
(pkg/engine/bleve/index.go): copy MaxScore, Took, Total; copy Status when
present; then append one converted Hit per native hit, ranging over r.Hits in
order. -/
def convertSearchResult (r : NativeSearchResult) : Result :=
  let status : Option Status :=
    match r.status with
    | some st => some { total := st.total, failed := st.failed,
                        successful := st.successful }
    | none => none
  { status := status,
    hits := r.hits.map (fun h =>
      { index := h.index, id := h.id, score := h.score,
        explanation := convertExplanation h.expl, sort := h.sort,
        fields := h.fields }),
    total := r.total, maxScore := r.maxScore, took := r.took }

/-
  Engine/Index facade (pkg/engine/bleve/index.go and part_003).  The underlying
  bleve index handle is an external collaborator: its per-call behavior
  (document submission outcome, request validation outcome, query execution
  outcome) is passed in as explicit arguments.  Each operation also reports
  whether the underlying engine was reached, mirroring whether the
  `i.index.…` statement executed.
-/

/-- Go error values produced or forwarded by the facade, compared by identity. -/
inductive Err where
  | noSuchIndex (name : String)
  | validation (msg : String)
  | engineErr (msg : String)
  | submission (msg : String)
  | noResults
deriving DecidableEq

/-- Go: `type Index struct { name string; index bleve.Index; err error }`
(pkg/engine/bleve/index.go).  The bleve handle itself is external and carried
implicitly. -/
structure IndexHandle where
  name : String
  err : Option Err
deriving DecidableEq

/-- Go: `type Engine struct { indices map[string]bleve.Index }` (part_003),
modelled by its key set. -/
structure Engine where
  indices : List String
deriving DecidableEq

/-- Go: `func (e *Engine) Index(name string) search.Index` (part_003): a known
name yields a handle bound to it; an unknown name yields a handle whose only
populated field is a latched "index does not exist for this engine" error
carrying the name. -/
def engineIndex (e : Engine) (name : String) : IndexHandle :=
  if e.indices.contains name then { name := name, err := none }
  else { name := "", err := some (.noSuchIndex name) }

/-- Go: `func (i *Index) Index(ctx, id, data) error`
(pkg/engine/bleve/index.go): return the latched error when present, otherwise
delegate to the engine (`submit` is the engine's outcome).  The Bool reports
whether `i.index.Index` was reached. -/
def indexIndex (i : IndexHandle) (submit : Option Err) : Option Err × Bool :=
  match i.err with
  | some e => (some e, false)
  | none => (submit, true)

/-- Go: `func (i *Index) Search(ctx, q) (*search.Result, error)`
(pkg/engine/bleve/index.go): return the latched error when present; compile the
query (a compiler panic aborts the process); validate the request (`validate`
is the engine's outcome); execute (`exec` is the engine's outcome); then —
before normalizing — return the error "no results for provided query" whenever
the response's Total is 0.  The Bool reports whether `i.index.Search` was
reached. -/
def indexSearch (i : IndexHandle) (q : Query) (validate : Option Err)
    (exec : Except Err NativeSearchResult) :
    GoResult ((Except Err Result) × Bool) :=
  match i.err with
  | some e => .ok (.error e, false)
  | none =>
    match convertQuery q with
    | .panicked m => .panicked m
    | .ok _nq =>
      match validate with
      | some e => .ok (.error e, false)
      | none =>
        match exec with
        | .error e => .ok (.error e, true)
        | .ok res =>
          if res.total = 0 then .ok (.error .noResults, true)
          else .ok (.ok (convertSearchResult res), true)

/-
  Concrete inputs used by the claim evaluations.
-/

/-- `search.NewQueryMatchNone()` wrapped as a Query value. -/
def matchNoneQuery : Query := .matchNone newQueryMatchNone

/-- A successful native response with zero hits: Total == 0, no hit entries. -/
def emptyNativeResult : NativeSearchResult :=
  { status := none, hits := [], total := 0, maxScore := 0, took := 0 }

/-- An arbitrary Query implementation whose plan carries
Type == QueryTypeWildcard and zero values elsewhere. -/
def wildcardRawQuery : Query :=
  .raw QueryTypeWildcard [] [] [] "" none "" false [] 0 0 0 [] .null .null
    false false

/-- C1: Contrary to the claim, zero hits IS treated as an error by the code:
on a valid index handle, with a MatchNone query that the engine executes
successfully reporting Total == 0, Index.Search returns a nil Result and the
error "no results for provided query" instead of a non-nil empty Result with a
nil error (pkg/engine/bleve/index.go lines 61-63). -/
theorem search_zero_hits_reports_error :
    indexSearch { name := "base", err := none } matchNoneQuery none
      (.ok emptyNativeResult) = .ok (.error .noResults, true) := by
  simp [indexSearch, matchNoneQuery, newQueryMatchNone, convertQuery,
        queryPlan, queryPlanSt, setBoostIfPresent, emptyNativeResult, zeroPlan]

/-- C2: Contrary to the claim, the compiler does not report an error on an
unrecognized QueryPlan.Type: convertQuery's switch falls into the default arm
and panics — a process abort — here evaluated at a plan of type
QueryTypeWildcard. -/
theorem convertQuery_wildcard_panics :
    convertQuery wildcardRawQuery =
      .panicked "unexpected query type: wildcard query type" := by
  simp [wildcardRawQuery, convertQuery, queryPlan, queryPlanSt,
        unexpectedQueryType, qtString, queryTypes, QueryTypeWildcard,
        QueryTypeBoolField, QueryTypeBoolean, QueryTypeDateRange, QueryTypeIDs,
        QueryTypeMatch, QueryTypeMatchAll, QueryTypeMatchNone,
        QueryTypeMatchPhrase, QueryTypeTerm]

/-- C4: Contrary to the claim, a boost set via SetBoost on QueryMatchAll or
QueryMatchNone is silently dropped: SetBoost stores the value on the builder,
but their QueryPlan() methods return `QueryPlan{Type: ...}` without copying
BoostVal, so the compiled native query node carries no boost (none), not the
configured multiplicative weight. -/
theorem matchAll_matchNone_setBoost_dropped :
    (newQueryMatchAll.setBoost 2).boostVal = some 2 ∧
    convertQuery (.matchAll (newQueryMatchAll.setBoost 2)) =
      .ok (.matchAll none) ∧
    (newQueryMatchNone.setBoost 2).boostVal = some 2 ∧
    convertQuery (.matchNone (newQueryMatchNone.setBoost 2)) =
      .ok (.matchNone none) := by
  refine ⟨rfl, ?_, rfl, ?_⟩ <;>
    simp [convertQuery, queryPlan, queryPlanSt, setBoostIfPresent,
          newQueryMatchAll, newQueryMatchNone, QueryMatchAll.setBoost,
          QueryMatchNone.setBoost, zeroPlan]

/-- C10 counterexample: at the QueryType value -1, String() does not return a
string — the negative index passes the `>= len` guard and the name-table
indexing panics with an index-out-of-range runtime error. -/
theorem qtString_negative_panics :
    qtString (-1) = .panicked "runtime error: index out of range" := by
  simp [qtString, queryTypes]

/-- C10 (amended): for every non-negative QueryType value q, String() returns
a string without panicking, and every value at or past the end of the name
table renders as "unknown query type"; only negative values panic. -/
theorem qtString_nonneg_total (q : QueryType) (h : 0 ≤ q) :
    (∃ s, qtString q = .ok s) ∧
    ((queryTypes.length : Int) ≤ q → qtString q = .ok "unknown query type") := by
  unfold qtString
  by_cases hl : (queryTypes.length : Int) ≤ q
  · simp [hl]
  · have hneg : ¬ q < 0 := not_lt.mpr h
    simp [hl, hneg]

/-- C10 witness: the amended statement evaluated at the out-of-range value 99. -/
theorem qtString_nonneg_total_witness :
    (∃ s, qtString 99 = .ok s) ∧
    ((queryTypes.length : Int) ≤ 99 →
      qtString 99 = .ok "unknown query type") :=
  qtString_nonneg_total 99 (by norm_num)

/-- C3: Engine.Index on a name absent from the index mapping returns a handle
that latches the "no such index" error carrying that name, and every
subsequent Index.Index and Index.Search call on that handle — for any document
submission outcome, query, validation outcome and execution outcome — returns
that same latched error without reaching the underlying engine and without
aborting the process. -/
theorem engineIndex_unknown_latches (e : Engine) (name : String) (q : Query)
    (submit : Option Err) (validate : Option Err)
    (exec : Except Err NativeSearchResult)
    (h : e.indices.contains name = false) :
    (engineIndex e name).err = some (.noSuchIndex name) ∧
    indexIndex (engineIndex e name) submit = (some (.noSuchIndex name), false) ∧
    indexSearch (engineIndex e name) q validate exec =
      .ok (.error (.noSuchIndex name), false) := by
  have hmem : name ∉ e.indices := by simpa using h
  simp [engineIndex, hmem, indexIndex, indexSearch]

/-- C3 witness: the latching behavior evaluated on an engine with no indices
and the name "missing". -/
theorem engineIndex_unknown_latches_witness :
    (engineIndex { indices := [] } "missing").err =
      some (.noSuchIndex "missing") ∧
    indexIndex (engineIndex { indices := [] } "missing") none =
      (some (.noSuchIndex "missing"), false) ∧
    indexSearch (engineIndex { indices := [] } "missing") matchNoneQuery none
      (.ok emptyNativeResult) =
      .ok (.error (.noSuchIndex "missing"), false) :=
  engineIndex_unknown_latches { indices := [] } "missing" matchNoneQuery none
    none (.ok emptyNativeResult) rfl

/-- C7: lowering is deterministic and has no side effects on the builder: each
QueryPlan() method leaves its receiver unchanged, and calling QueryPlan() again
on that receiver yields a field-for-field identical plan, for every query
variant. -/
theorem queryPlan_deterministic (q : Query) :
    (queryPlanSt q).2 = q ∧
    (queryPlanSt ((queryPlanSt q).2)).1 = (queryPlanSt q).1 := by
  cases q <;> exact ⟨rfl, rfl⟩

/-- C8: the plan of NewQueryMatch(m) with no setters called has Operator OR,
Fuzziness 0 and Prefix 0; and for every plan whose Fuzziness and Prefix are 0,
the compiled native match query has neither fuzziness nor prefix set —
newMatchQuery writes them only when greater than 0. -/
theorem newQueryMatch_defaults (m : String) (qp : QueryPlan)
    (hf : qp.fuzziness = 0) (hp : qp.prefixLen = 0) (nq : MatchQueryN)
    (hok : newMatchQuery qp = .ok nq) :
    (queryPlan (.matchQ (newQueryMatch m))).operator = MatchQueryOperatorOr ∧
    (queryPlan (.matchQ (newQueryMatch m))).fuzziness = 0 ∧
    (queryPlan (.matchQ (newQueryMatch m))).prefixLen = 0 ∧
    nq.fuzziness = none ∧ nq.prefixLen = none := by
  refine ⟨rfl, rfl, rfl, ?_, ?_⟩ <;>
  · cases hm : qp.matchesVal with
    | nil => simp [newMatchQuery, hm] at hok
    | cons m0 rest =>
      simp [newMatchQuery, hm, hf, hp] at hok
      subst hok
      rfl

/-- C8 witness: the defaults and the unset fuzziness/prefix evaluated at the
builder NewQueryMatch("bar"). -/
theorem newQueryMatch_defaults_witness :
    (queryPlan (.matchQ (newQueryMatch "bar"))).operator =
      MatchQueryOperatorOr ∧
    (queryPlan (.matchQ (newQueryMatch "bar"))).fuzziness = 0 ∧
    (queryPlan (.matchQ (newQueryMatch "bar"))).prefixLen = 0 ∧
    (⟨"bar", 0, none, none, none, none, none⟩ : MatchQueryN).fuzziness = none ∧
    (⟨"bar", 0, none, none, none, none, none⟩ : MatchQueryN).prefixLen = none :=
  newQueryMatch_defaults "bar" (queryPlan (.matchQ (newQueryMatch "bar")))
    rfl rfl ⟨"bar", 0, none, none, none, none, none⟩ rfl

/-- C9: every plan produced by the Match, Term or MatchPhrase builder has a
Matches sequence of length exactly 1, so the compiler's unguarded Matches[0]
accesses in newMatchQuery, newTermQuery and newMatchPhraseQuery are in bounds
and compiling such builder-produced plans always yields a native query, never
the out-of-range panic. -/
theorem builder_matchesVal_singleton (qm : QueryMatch) (qt : QueryTerm)
    (qmp : QueryMatchPhrase) :
    (queryPlan (.matchQ qm)).matchesVal.length = 1 ∧
    (queryPlan (.term qt)).matchesVal.length = 1 ∧
    (queryPlan (.matchPhrase qmp)).matchesVal.length = 1 ∧
    (∃ n, convertQuery (.matchQ qm) = .ok n) ∧
    (∃ n, convertQuery (.term qt) = .ok n) ∧
    (∃ n, convertQuery (.matchPhrase qmp) = .ok n) := by
  refine ⟨rfl, rfl, rfl, ?_, ?_, ?_⟩ <;>
    simp [convertQuery, newMatchQuery, newTermQuery, newMatchPhraseQuery,
          queryPlan, queryPlanSt, zeroPlan]

/-- The reference structural copy preserves the number of children (helper for
stating depth preservation in the claim's own terms). -/
theorem explCopySpecList_length (cs : List (Option NativeExplanation)) :
    (explCopySpecList cs).length = cs.length := by
  induction cs with
  | nil => simp [explCopySpecList]
  | cons c rest ih =>
    cases c <;> simp [explCopySpecList, ih]

mutual
/-- The code's per-node conversion agrees with the reference recursive
structural copy: the `make` in convertExplanation sizes the children sequence
from the new node, whose Children field is still empty, so it contributes
nothing and the append loop reproduces the source children in full. -/
theorem convertExplanationRec_eq_spec (ex : NativeExplanation) :
    convertExplanationRec ex = explCopySpec ex := by
  match ex with
  | .mk v msg cs =>
    have hlist := convertExplanationList_eq_spec cs
    by_cases h : cs.length = 0
    · have hnil : cs = [] := List.length_eq_zero.mp h
      subst hnil
      simp [convertExplanationRec, explCopySpec, explCopySpecList]
    · simp [convertExplanationRec, explCopySpec, h, hlist,
            Explanation.children]
termination_by sizeOf ex

/-- The code's child-conversion loop agrees with the reference per-child
copy. -/
theorem convertExplanationList_eq_spec
    (cs : List (Option NativeExplanation)) :
    convertExplanationList cs = explCopySpecList cs := by
  match cs with
  | [] => simp [convertExplanationList, explCopySpecList]
  | none :: rest =>
    have ih := convertExplanationList_eq_spec rest
    simp [convertExplanationList, explCopySpecList, ih]
  | some c :: rest =>
    have h1 := convertExplanationRec_eq_spec c
    have ih := convertExplanationList_eq_spec rest
    simp [convertExplanationList, explCopySpecList, h1, ih]
termination_by sizeOf cs
end

/-- C5: convertExplanation is a full recursive structural copy: a nil native
explanation converts to nil (not an empty node), and a non-nil one converts to
exactly the reference recursive structural copy — Value and Message preserved
at every node and the order and number of children preserved at every depth,
grandchildren included. -/
theorem convertExplanation_structural_copy :
    convertExplanation none = none ∧
    (∀ ex, convertExplanation (some ex) = some (explCopySpec ex)) ∧
    (∀ ex, (explCopySpec ex).value = ex.value ∧
           (explCopySpec ex).message = ex.message ∧
           (explCopySpec ex).children.length = ex.children.length) := by
  refine ⟨rfl, ?_, ?_⟩
  · intro ex
    simp [convertExplanation, convertExplanationRec_eq_spec ex]
  · intro ex
    match ex with
    | .mk v msg cs =>
      refine ⟨rfl, rfl, ?_⟩
      simp [explCopySpec, Explanation.children, NativeExplanation.children,
            explCopySpecList_length]

/-- C6: the normalized Result contains exactly one Hit per native hit, in
exactly the native order (a map over the native hit sequence — no re-ranking
or re-sorting), each Hit carrying the native hit's Index, ID, Score, Sort and
Fields unchanged, and Total, MaxScore and Took copied from the native
response. -/
theorem convertSearchResult_preserves (r : NativeSearchResult) :
    (convertSearchResult r).hits.length = r.hits.length ∧
    (convertSearchResult r).hits = r.hits.map (fun h =>
      { index := h.index, id := h.id, score := h.score, sort := h.sort,
        explanation := convertExplanation h.expl, fields := h.fields }) ∧
    (convertSearchResult r).total = r.total ∧
    (convertSearchResult r).maxScore = r.maxScore ∧
    (convertSearchResult r).took = r.took := by
  refine ⟨?_, rfl, rfl, rfl, rfl⟩
  simp [convertSearchResult]
